import Mathlib

/-!
Shallow embedding of the workspace status-subscription and reconciliation
fragment of the dashboard (class DevWorkspaceClient): the per-namespace
previous-status cache, the duplicate-log suppression map, the three
websocket channel listeners registered by subscribe, the reconnect hook
onDidWebSocketOpen, the failure-listener bookkeeping, and the explicit
error check checkForDevWorkspaceError.

JavaScript Maps are embedded as association lists with unique keys;
optional string fields are Option String; the distinction between a string
phase and a non-string phase (typeof phase === 'string') is embedded by
the JsVal type.  Handlers are pure functions from the relevant state parts
to a result record that carries the new state, the list of callback
invocations, and the list of alert keys shown.
-/

set_option autoImplicit false

/-- A JavaScript value as far as the phase field is concerned: either a
string or some non-string value. -/
inductive JsVal where
  | vstr (s : String)
  | vother
deriving DecidableEq, Repr

/-- The status sub-object of a devworkspace: optional phase, optional
message. -/
structure DwStatus where
  phase : Option JsVal
  message : Option String
deriving DecidableEq, Repr

/-- Workspace metadata; only the namespace is relevant here. -/
structure DwMetadata where
  ns : String
deriving DecidableEq, Repr

/-- A devworkspace object as seen by the client: metadata, an opaque id
and an optional status. -/
structure DevWorkspace where
  metadata : DwMetadata
  uid : String
  status : Option DwStatus
deriving DecidableEq, Repr

/-- The IStatusUpdate interface of the source: all fields optional except
workspaceId. -/
structure IStatusUpdate where
  error : Option String
  message : Option String
  status : Option String
  prevStatus : Option String
  workspaceId : String
deriving DecidableEq, Repr

/-- Map.get on an association list: value of the first binding of the key. -/
def mapGet {α : Type} : List (String × α) → String → Option α
  | [], _ => none
  | (k, v) :: rest, key => if k = key then some v else mapGet rest key

/-- Map.set on an association list: replace the binding of the key when
present, append a new binding otherwise. -/
def mapSet {α : Type} : List (String × α) → String → α → List (String × α)
  | [], key, v => [(key, v)]
  | (k, w) :: rest, key, v =>
    if k = key then (key, v) :: rest else (k, w) :: mapSet rest key v

/-- Map.delete on an association list: drop the binding of the key.  A
JavaScript Map holds at most one binding per key, so dropping every
matching binding is the same operation. -/
def mapDelete {α : Type} : List (String × α) → String → List (String × α)
  | [], _ => []
  | (k, v) :: rest, key =>
    if k = key then mapDelete rest key else (k, v) :: mapDelete rest key

/-- Array.prototype.splice after indexOf: remove the first occurrence of
an element from a list, keep the list unchanged when it is absent. -/
def removeFirst : List String → String → List String
  | [], _ => []
  | x :: rest, y => if x = y then rest else x :: removeFirst rest y

/-- Modelled from the spec: the status-phase vocabulary of the
orchestration API (DevWorkspaceStatus in helpers/types, not under src). -/
def DevWorkspaceStatus.STARTING : String := "STARTING"

/-- Modelled from the spec: the STOPPED phase. -/
def DevWorkspaceStatus.STOPPED : String := "STOPPED"

/-- Modelled from the spec: the RUNNING phase. -/
def DevWorkspaceStatus.RUNNING : String := "RUNNING"

/-- Modelled from the spec: the FAILED phase. -/
def DevWorkspaceStatus.FAILED : String := "FAILED"

/-- Modelled from the spec: the TERMINATING phase. -/
def DevWorkspaceStatus.TERMINATING : String := "TERMINATING"

/-- Modelled from the spec: getId from workspace-adapter/helper (not under
src) extracts the opaque workspace id of a devworkspace. -/
def getId (dw : DevWorkspace) : String := dw.uid

/-- Modelled from the spec: getStatus from workspace-adapter/helper (not
under src) reads the current status phase of the workspace, undefined when
the status or phase is absent or not a string. -/
def getStatus (dw : DevWorkspace) : Option String :=
  match dw.status with
  | some st =>
    match st.phase with
    | some (JsVal.vstr s) => some s
    | _ => none
  | none => none

/-- The optional chain devworkspace.status?.message. -/
def statusMessage (dw : DevWorkspace) : Option String :=
  dw.status.bind (fun st => st.message)

/-- The test typeof devworkspace?.status?.phase === 'string' of
createStatusUpdate. -/
def phaseIsString (dw : DevWorkspace) : Bool :=
  match dw.status with
  | some st =>
    match st.phase with
    | some (JsVal.vstr _) => true
    | _ => false
  | none => false

/-- An untyped inbound payload delivered on a websocket channel: a
devworkspace object, a plain string, or anything else. -/
inductive Payload where
  | workspace (dw : DevWorkspace)
  | str (s : String)
  | other
deriving DecidableEq, Repr

/-- Modelled from the spec: the runtime type guard isDevWorkspace from
devfileApi (not under src), the workspace-shape check of the dispatcher. -/
def isDevWorkspace : Payload → Bool
  | Payload.workspace _ => true
  | _ => false

/-- The typeof x === 'string' check of the onDeleted listener. -/
def isStringPayload : Payload → Bool
  | Payload.str _ => true
  | _ => false

/-- previousItems: Map from namespace to a Map from workspaceId to the
last cached IStatusUpdate. -/
abbrev NsMap := List (String × List (String × IStatusUpdate))

/-- lastDevWorkspaceLog: Map from workspaceId to the last status message
seen for it. -/
abbrev LogMap := List (String × String)

/-- DevWorkspaceClient.createStatusUpdate: compute the status delta for an
incoming devworkspace against the previousItems cache and store the new
update in the cache.  Returns the produced update and the new cache. -/
def createStatusUpdate (previousItems : NsMap) (devworkspace : DevWorkspace) :
    IStatusUpdate × NsMap :=
  let ns := devworkspace.metadata.ns
  let workspaceId := getId devworkspace
  let status :=
    if phaseIsString devworkspace then
      match devworkspace.status with
      | some st =>
        match st.phase with
        | some (JsVal.vstr s) => s
        | _ => DevWorkspaceStatus.STARTING
      | none => DevWorkspaceStatus.STARTING
    else DevWorkspaceStatus.STARTING
  match mapGet previousItems ns with
  | some prevWorkspace =>
    let prevStatus := mapGet prevWorkspace workspaceId
    let newUpdate : IStatusUpdate :=
      { error := none, message := none, status := some status,
        prevStatus := prevStatus.bind (fun u => u.status), workspaceId := workspaceId }
    (newUpdate, mapSet previousItems ns (mapSet prevWorkspace workspaceId newUpdate))
  | none =>
    let newStatus : IStatusUpdate :=
      { error := none, message := none, status := some status,
        prevStatus := some status, workspaceId := workspaceId }
    (newStatus, mapSet previousItems ns (mapSet [] workspaceId newStatus))

/-- Result of one run of the onModified listener: the new caches, the
updateDevWorkspaceStatus invocations and the alert keys shown. -/
structure ModifiedResult where
  previousItems : NsMap
  lastDevWorkspaceLog : LogMap
  statusCalls : List IStatusUpdate
  alerts : List String
deriving DecidableEq, Repr

/-- Overwriting the update cached for a workspace: models the JavaScript
aliasing by which statusUpdate.message = statusMessage also mutates the
object already stored in previousItems by createStatusUpdate. -/
def cacheStore (previousItems : NsMap) (ns workspaceId : String) (u : IStatusUpdate) : NsMap :=
  match mapGet previousItems ns with
  | some wsMap => mapSet previousItems ns (mapSet wsMap workspaceId u)
  | none => previousItems

/-- The onModified listener registered by DevWorkspaceClient.subscribe:
shape-check the payload, compute the status delta, attach the status
message unless it repeats the last one recorded for this workspace, and
forward the update. -/
def onModified (previousItems : NsMap) (lastDevWorkspaceLog : LogMap) (payload : Payload) :
    ModifiedResult :=
  match payload with
  | Payload.workspace devworkspace =>
    let r := createStatusUpdate previousItems devworkspace
    let statusUpdate := r.1
    let previousItems1 := r.2
    match statusMessage devworkspace with
    | some m =>
      if m = "" then
        { previousItems := previousItems1, lastDevWorkspaceLog := lastDevWorkspaceLog,
          statusCalls := [statusUpdate], alerts := [] }
      else
        let workspaceId := getId devworkspace
        let lastMessage := mapGet lastDevWorkspaceLog workspaceId
        if lastMessage = some m then
          { previousItems := previousItems1, lastDevWorkspaceLog := lastDevWorkspaceLog,
            statusCalls := [statusUpdate], alerts := [] }
        else
          let statusUpdate1 := { statusUpdate with message := some m }
          { previousItems := cacheStore previousItems1 devworkspace.metadata.ns workspaceId statusUpdate1,
            lastDevWorkspaceLog := mapSet lastDevWorkspaceLog workspaceId m,
            statusCalls := [statusUpdate1], alerts := [] }
    | none =>
      { previousItems := previousItems1, lastDevWorkspaceLog := lastDevWorkspaceLog,
        statusCalls := [statusUpdate], alerts := [] }
  | _ =>
    { previousItems := previousItems, lastDevWorkspaceLog := lastDevWorkspaceLog,
      statusCalls := [], alerts := ["onModified-websocket-channel"] }

/-- Result of one run of the onAdded listener. -/
structure AddedResult where
  addedCalls : List (List DevWorkspace)
  alerts : List String
deriving DecidableEq, Repr

/-- The onAdded listener registered by DevWorkspaceClient.subscribe. -/
def onAdded : Payload → AddedResult
  | Payload.workspace dw => { addedCalls := [[dw]], alerts := [] }
  | _ => { addedCalls := [], alerts := ["onAdded-websocket-channel"] }

/-- Result of one run of the onDeleted listener. -/
structure DeletedResult where
  deletedCalls : List (List String)
  alerts : List String
deriving DecidableEq, Repr

/-- The onDeleted listener registered by DevWorkspaceClient.subscribe:
forward a string payload as a singleton deleted-ids list, warn and discard
any non-string payload. -/
def onDeleted : Payload → DeletedResult
  | Payload.str workspaceId => { deletedCalls := [[workspaceId]], alerts := [] }
  | _ => { deletedCalls := [], alerts := ["onDeleted-websocket-channel"] }

/-- DevWorkspaceClient.checkForDevWorkspaceError: throw when the current
phase equals FAILED, with the remote message when it is truthy and a
generic fallback otherwise; return normally in every other case. -/
def checkForDevWorkspaceError (devworkspace : DevWorkspace) : Except String Unit :=
  match getStatus devworkspace with
  | some currentPhase =>
    if currentPhase = DevWorkspaceStatus.FAILED then
      match statusMessage devworkspace with
      | some message =>
        if message = "" then
          Except.error "Unknown error occured when trying to process the devworkspace"
        else Except.error message
      | none => Except.error "Unknown error occured when trying to process the devworkspace"
    else Except.ok ()
  | none => Except.ok ()

/-- DevWorkspaceClient.changeWorkspaceStatus after the external
DwApi.patchWorkspace call has returned changedWorkspace: when started is
false the lastDevWorkspaceLog entry for the workspace id is deleted, then
checkForDevWorkspaceError may throw.  Returns the new log map together
with the outcome. -/
def changeWorkspaceStatus (lastDevWorkspaceLog : LogMap) (changedWorkspace : DevWorkspace)
    (started : Bool) : LogMap × Except String DevWorkspace :=
  let lastLog1 :=
    if started then lastDevWorkspaceLog
    else mapDelete lastDevWorkspaceLog (getId changedWorkspace)
  match checkForDevWorkspaceError changedWorkspace with
  | Except.error e => (lastLog1, Except.error e)
  | Except.ok _ => (lastLog1, Except.ok changedWorkspace)

/-- The params object of a subscribe request. -/
structure SubscribeParams where
  ns : String
  resourceVersion : Option String
deriving DecidableEq, Repr

/-- The SubscribeMessage sent on the websocket. -/
structure SubscribeMessage where
  request : String
  params : SubscribeParams
  channel : String
deriving DecidableEq, Repr

/-- The Subscriber of the source holds a namespace and four callbacks; the
getResourceVersion callback is embedded by the value it resolves to, and
the three sink callbacks are represented by the invocation lists in the
handler results. -/
structure Subscriber where
  ns : String
  resourceVersion : Option String
deriving DecidableEq, Repr

/-- The state of a DevWorkspaceClient, abstract in the transport type W
and the type L of registered failure-listener callbacks. -/
structure ClientState (W L : Type) where
  subscriber : Option Subscriber
  previousItems : NsMap
  lastDevWorkspaceLog : LogMap
  failingWebSockets : List String
  webSocketListeners : List L
  websocketClient : W

/-- The getSubscribeMessage closure of DevWorkspaceClient.subscribe. -/
def getSubscribeMessage (sub : Subscriber) (channel : String) : SubscribeMessage :=
  { request := "SUBSCRIBE",
    params := { ns := sub.ns, resourceVersion := sub.resourceVersion },
    channel := channel }

/-- DevWorkspaceClient.subscribe: fail when no Subscriber is set, else
issue one subscribe request per channel, onModified then onAdded then
onDeleted, registering the corresponding listeners.  The requests are
returned in the order they are sent; an error result sends none. -/
def subscribe {W L : Type} (st : ClientState W L) : Except String (List SubscribeMessage) :=
  match st.subscriber with
  | none => Except.error "Error: Subscriber does not set."
  | some sub =>
    Except.ok [getSubscribeMessage sub "onModified",
               getSubscribeMessage sub "onAdded",
               getSubscribeMessage sub "onDeleted"]

/-- DevWorkspaceClient.onWebSocketFailed: register one more callback on
the websocketClose event. -/
def onWebSocketFailed {W L : Type} (st : ClientState W L) (callback : L) : ClientState W L :=
  { st with webSocketListeners := st.webSocketListeners ++ [callback] }

/-- DevWorkspaceClient.removeWebSocketFailedListener: drop every listener
of the websocketClose event and truncate the failing-websockets list to
length zero. -/
def removeWebSocketFailedListener {W L : Type} (st : ClientState W L) : ClientState W L :=
  { st with webSocketListeners := [], failingWebSockets := [] }

/-- The onDidWebSocketFailing transport callback: record the context as
unhealthy and notify the registered listeners. -/
def onDidWebSocketFailing {W L : Type} (st : ClientState W L) (websocketContext : String) :
    ClientState W L :=
  { st with failingWebSockets := st.failingWebSockets ++ [websocketContext] }

/-- Result of the onDidWebSocketOpen transport callback: the new state,
how many times the websocketClose event was emitted, the subscribe
requests issued by the subscribe call, and the alert keys shown when that
call failed. -/
structure OpenResult (W L : Type) where
  state : ClientState W L
  emitCount : Nat
  subscribeRequests : List SubscribeMessage
  alerts : List String

/-- The onDidWebSocketOpen transport callback: remove the context from the
failing list when present (emitting the websocketClose event), then call
subscribe, alerting on its failure. -/
def onDidWebSocketOpen {W L : Type} (st : ClientState W L) (websocketContext : String) :
    OpenResult W L :=
  let found := st.failingWebSockets.contains websocketContext
  let st1 := { st with failingWebSockets := removeFirst st.failingWebSockets websocketContext }
  match subscribe st1 with
  | Except.ok msgs =>
    { state := st1, emitCount := if found then 1 else 0,
      subscribeRequests := msgs, alerts := [] }
  | Except.error _ =>
    { state := st1, emitCount := if found then 1 else 0,
      subscribeRequests := [], alerts := ["websocket-subscribe-error"] }

/-! Concrete inputs used by witnesses and counterexamples. -/

/-- A running workspace w1 in namespace ns1, no status message. -/
def dwW1 : DevWorkspace :=
  { metadata := { ns := "ns1" }, uid := "w1",
    status := some { phase := some (JsVal.vstr "RUNNING"), message := none } }

/-- A running workspace w2 in the same namespace ns1. -/
def dwW2 : DevWorkspace :=
  { metadata := { ns := "ns1" }, uid := "w2",
    status := some { phase := some (JsVal.vstr "RUNNING"), message := none } }

/-- A workspace carrying a status message. -/
def dwMsg : DevWorkspace :=
  { metadata := { ns := "ns1" }, uid := "w1",
    status := some { phase := some (JsVal.vstr "RUNNING"), message := some "hello" } }

/-- A workspace with no status object at all. -/
def dwNoPhase : DevWorkspace :=
  { metadata := { ns := "ns1" }, uid := "w1", status := none }

/-- A failed workspace carrying a status message. -/
def dwFailed : DevWorkspace :=
  { metadata := { ns := "ns1" }, uid := "w1",
    status := some { phase := some (JsVal.vstr "FAILED"), message := some "boom" } }

/-- C1 counterexample: process w1 then w2 in the same namespace starting
from an empty cache.  After the w1 event the namespace map holds no entry
for w2, so w2 has no prior cached entry, yet the update produced for w2
has prevStatus none, not its own status as the claim requires. -/
theorem C1_counterexample :
    ((mapGet (createStatusUpdate [] dwW1).2 "ns1").bind (fun wsMap => mapGet wsMap "w2")
        = none) ∧
    (createStatusUpdate (createStatusUpdate [] dwW1).2 dwW2).1.status = some "RUNNING" ∧
    (createStatusUpdate (createStatusUpdate [] dwW1).2 dwW2).1.prevStatus = none ∧
    (createStatusUpdate (createStatusUpdate [] dwW1).2 dwW2).1.prevStatus ≠
      (createStatusUpdate (createStatusUpdate [] dwW1).2 dwW2).1.status := by
  decide

/-- C1 (amended): the prevStatus of the update produced by
createStatusUpdate equals the status of the update previously cached for
the same workspaceId in the same namespace when such an entry exists; when
the namespace has no cache map at all, prevStatus equals the current
status; but when the namespace map exists without an entry for this
workspaceId, prevStatus is undefined (none), not the current status. -/
theorem C1_thm (previousItems : NsMap) (dw : DevWorkspace) :
    (∀ wsMap cached, mapGet previousItems dw.metadata.ns = some wsMap →
      mapGet wsMap (getId dw) = some cached →
      (createStatusUpdate previousItems dw).1.prevStatus = cached.status) ∧
    (mapGet previousItems dw.metadata.ns = none →
      (createStatusUpdate previousItems dw).1.prevStatus =
        (createStatusUpdate previousItems dw).1.status) ∧
    (∀ wsMap, mapGet previousItems dw.metadata.ns = some wsMap →
      mapGet wsMap (getId dw) = none →
      (createStatusUpdate previousItems dw).1.prevStatus = none) := by
  refine ⟨?_, ?_, ?_⟩
  · intro wsMap cached h1 h2
    simp [createStatusUpdate, h1, h2]
  · intro h1
    simp [createStatusUpdate, h1]
  · intro wsMap h1 h2
    simp [createStatusUpdate, h1, h2]

/-- C1 witness: with a cached entry for w1 present, the next update for w1
reports the cached status RUNNING as prevStatus. -/
theorem C1_witness :
    (createStatusUpdate (createStatusUpdate [] dwW1).2 dwW1).1.prevStatus = some "RUNNING" := by
  have h := (C1_thm (createStatusUpdate [] dwW1).2 dwW1).1
    [("w1", (createStatusUpdate [] dwW1).1)] (createStatusUpdate [] dwW1).1
    (by decide) (by decide)
  exact h.trans (by decide)

/-- C10: whenever the phase of the incoming workspace is absent or not a
string, createStatusUpdate substitutes the STARTING phase for the status
of the produced update. -/
theorem C10_thm (previousItems : NsMap) (dw : DevWorkspace)
    (h : phaseIsString dw = false) :
    (createStatusUpdate previousItems dw).1.status = some DevWorkspaceStatus.STARTING := by
  cases hprev : mapGet previousItems dw.metadata.ns <;>
    simp [createStatusUpdate, h, hprev]

/-- C10 witness: a workspace with no status object is reported STARTING. -/
theorem C10_witness :
    (createStatusUpdate [] dwNoPhase).1.status = some DevWorkspaceStatus.STARTING :=
  C10_thm [] dwNoPhase rfl

/-- C3: the onDeleted listener discards every non-string payload with
exactly one warning alert keyed by the channel name and zero calls to the
updateDeletedDevWorkspaces callback, and forwards every string payload as
exactly one call with the singleton list of that id, with no alert. -/
theorem C3_thm (p : Payload) :
    (isStringPayload p = false →
      (onDeleted p).deletedCalls = [] ∧
      (onDeleted p).alerts = ["onDeleted-websocket-channel"]) ∧
    (∀ s, p = Payload.str s →
      (onDeleted p).deletedCalls = [[s]] ∧ (onDeleted p).alerts = []) := by
  cases p <;> simp [onDeleted, isStringPayload]

/-- C3 witness: a non-string payload yields no callback call and the
channel-keyed warning; the string payload w1 yields the singleton call. -/
theorem C3_witness :
    (onDeleted Payload.other).deletedCalls = [] ∧
    (onDeleted Payload.other).alerts = ["onDeleted-websocket-channel"] ∧
    (onDeleted (Payload.str "w1")).deletedCalls = [["w1"]] :=
  ⟨((C3_thm Payload.other).1 rfl).1, ((C3_thm Payload.other).1 rfl).2,
   ((C3_thm (Payload.str "w1")).2 "w1" rfl).1⟩

/-- C4: the onModified listener, on a payload failing the workspace-shape
check, makes zero calls to the updateDevWorkspaceStatus callback, leaves
the previous-status cache and the last-log-message map unchanged, and
emits the channel-keyed warning (the listener returns normally, it never
throws). -/
theorem C4_thm (previousItems : NsMap) (lastLog : LogMap) (p : Payload)
    (h : isDevWorkspace p = false) :
    (onModified previousItems lastLog p).statusCalls = [] ∧
    (onModified previousItems lastLog p).previousItems = previousItems ∧
    (onModified previousItems lastLog p).lastDevWorkspaceLog = lastLog ∧
    (onModified previousItems lastLog p).alerts = ["onModified-websocket-channel"] := by
  cases p <;> simp_all [onModified, isDevWorkspace]

/-- C4 witness: a string payload on the modified channel is discarded with
no state change. -/
theorem C4_witness :
    (onModified [] [] (Payload.str "junk")).statusCalls = [] ∧
    (onModified [] [] (Payload.str "junk")).previousItems = [] ∧
    (onModified [] [] (Payload.str "junk")).lastDevWorkspaceLog = [] := by
  have h := C4_thm [] [] (Payload.str "junk") rfl
  exact ⟨h.1, h.2.1, h.2.2.1⟩

/-! Helper lemmas shared by the claim theorems. -/

/-- Looking up a key right after deleting it yields nothing. -/
theorem mapGet_mapDelete {α : Type} (m : List (String × α)) (key : String) :
    mapGet (mapDelete m key) key = none := by
  induction m with
  | nil => rfl
  | cons p rest ih =>
    by_cases h : p.1 = key
    · simpa [mapDelete, h] using ih
    · simpa [mapDelete, mapGet, h] using ih

/-- Looking up a key right after setting it yields the new value. -/
theorem mapGet_mapSet_self {α : Type} (m : List (String × α)) (key : String) (v : α) :
    mapGet (mapSet m key v) key = some v := by
  induction m with
  | nil => simp [mapSet, mapGet]
  | cons p rest ih =>
    by_cases h : p.1 = key
    · cases p; simp_all [mapSet, mapGet]
    · cases p; simp_all [mapSet, mapGet]

/-- The update produced by createStatusUpdate never carries a message. -/
theorem createStatusUpdate_message_none (previousItems : NsMap) (dw : DevWorkspace) :
    (createStatusUpdate previousItems dw).1.message = none := by
  cases h : mapGet previousItems dw.metadata.ns <;> simp [createStatusUpdate, h]

/-- The onModified listener on a workspace payload whose truthy status
message repeats the one last recorded for this workspace: the update is
forwarded without a message and the log map is untouched. -/
theorem onModified_dup (previousItems : NsMap) (lastLog : LogMap) (dw : DevWorkspace)
    (m : String) (hmsg : statusMessage dw = some m) (hne : m ≠ "")
    (hdup : mapGet lastLog (getId dw) = some m) :
    onModified previousItems lastLog (Payload.workspace dw) =
      { previousItems := (createStatusUpdate previousItems dw).2,
        lastDevWorkspaceLog := lastLog,
        statusCalls := [(createStatusUpdate previousItems dw).1], alerts := [] } := by
  simp [onModified, hmsg, hne, hdup]

/-- The onModified listener on a workspace payload whose truthy status
message differs from the one last recorded for this workspace: the message
is attached to the forwarded update and recorded in the log map. -/
theorem onModified_attach (previousItems : NsMap) (lastLog : LogMap) (dw : DevWorkspace)
    (m : String) (hmsg : statusMessage dw = some m) (hne : m ≠ "")
    (hdiff : mapGet lastLog (getId dw) ≠ some m) :
    onModified previousItems lastLog (Payload.workspace dw) =
      { previousItems := cacheStore (createStatusUpdate previousItems dw).2 dw.metadata.ns
          (getId dw) { (createStatusUpdate previousItems dw).1 with message := some m },
        lastDevWorkspaceLog := mapSet lastLog (getId dw) m,
        statusCalls := [{ (createStatusUpdate previousItems dw).1 with message := some m }],
        alerts := [] } := by
  simp [onModified, hmsg, hne, hdiff]

/-- C2: for a workspace payload carrying a truthy status message, the
message is not attached to the forwarded update when it equals the last
one recorded for this workspace id (and the log map is unchanged), it is
attached and recorded when it differs, and processing the same event again
right away forwards the update without the message, so a duplicate
consecutive message is forwarded at most once. -/
theorem C2_thm (previousItems : NsMap) (lastLog : LogMap) (dw : DevWorkspace) (m : String)
    (hmsg : statusMessage dw = some m) (hne : m ≠ "") :
    (mapGet lastLog (getId dw) = some m →
      (onModified previousItems lastLog (Payload.workspace dw)).statusCalls.map
          (fun u => u.message) = [none] ∧
      (onModified previousItems lastLog (Payload.workspace dw)).lastDevWorkspaceLog = lastLog) ∧
    (mapGet lastLog (getId dw) ≠ some m →
      (onModified previousItems lastLog (Payload.workspace dw)).statusCalls.map
          (fun u => u.message) = [some m] ∧
      mapGet (onModified previousItems lastLog (Payload.workspace dw)).lastDevWorkspaceLog
        (getId dw) = some m) ∧
    (onModified (onModified previousItems lastLog (Payload.workspace dw)).previousItems
        (onModified previousItems lastLog (Payload.workspace dw)).lastDevWorkspaceLog
        (Payload.workspace dw)).statusCalls.map (fun u => u.message) = [none] := by
  refine ⟨?_, ?_, ?_⟩
  · intro hdup
    rw [onModified_dup previousItems lastLog dw m hmsg hne hdup]
    exact ⟨by simp [createStatusUpdate_message_none], rfl⟩
  · intro hdiff
    rw [onModified_attach previousItems lastLog dw m hmsg hne hdiff]
    exact ⟨by simp, mapGet_mapSet_self lastLog (getId dw) m⟩
  · by_cases hdup : mapGet lastLog (getId dw) = some m
    · rw [onModified_dup previousItems lastLog dw m hmsg hne hdup]
      rw [onModified_dup _ lastLog dw m hmsg hne hdup]
      simp [createStatusUpdate_message_none]
    · rw [onModified_attach previousItems lastLog dw m hmsg hne hdup]
      rw [onModified_dup _ _ dw m hmsg hne (mapGet_mapSet_self lastLog (getId dw) m)]
      simp [createStatusUpdate_message_none]

/-- C2 witness: a fresh message hello is attached; when hello is already
recorded for w1, the log map stays as it is and nothing new is recorded. -/
theorem C2_witness :
    (onModified [] [] (Payload.workspace dwMsg)).statusCalls.map (fun u => u.message) =
      [some "hello"] ∧
    (onModified [] [("w1", "hello")] (Payload.workspace dwMsg)).lastDevWorkspaceLog =
      [("w1", "hello")] := by
  have h1 := ((C2_thm [] [] dwMsg "hello" rfl (by decide)).2.1 (by decide)).1
  have h2 := ((C2_thm [] [("w1", "hello")] dwMsg "hello" rfl (by decide)).1 (by decide)).2
  exact ⟨h1, h2⟩

/-- A subscriber for namespace ns1 resolving resource version rv1. -/
def sub1 : Subscriber := { ns := "ns1", resourceVersion := some "rv1" }

/-- A client state with no subscriber configured. -/
def stNoSub : ClientState Unit Unit :=
  { subscriber := none, previousItems := [], lastDevWorkspaceLog := [],
    failingWebSockets := [], webSocketListeners := [], websocketClient := () }

/-- The same client state with the subscriber configured. -/
def stWithSub : ClientState Unit Unit := { stNoSub with subscriber := some sub1 }

/-- C5: when no Subscriber is set, subscribe fails at once with the
no-subscriber error, issuing no subscribe request (an error result of the
model carries no requests and never reaches the transport); when a
Subscriber is set, subscribe succeeds, so the no-subscriber error branch
is unreachable. -/
theorem C5_thm {W L : Type} (st : ClientState W L) :
    (st.subscriber = none →
      subscribe st = Except.error "Error: Subscriber does not set.") ∧
    (∀ sub, st.subscriber = some sub →
      subscribe st = Except.ok [getSubscribeMessage sub "onModified",
        getSubscribeMessage sub "onAdded", getSubscribeMessage sub "onDeleted"]) := by
  constructor
  · intro h; simp [subscribe, h]
  · intro sub h; simp [subscribe, h]

/-- C5 witness: the concrete states with and without a subscriber. -/
theorem C5_witness :
    subscribe stNoSub = Except.error "Error: Subscriber does not set." ∧
    subscribe stWithSub = Except.ok [getSubscribeMessage sub1 "onModified",
      getSubscribeMessage sub1 "onAdded", getSubscribeMessage sub1 "onDeleted"] :=
  ⟨(C5_thm stNoSub).1 rfl, (C5_thm stWithSub).2 sub1 rfl⟩

/-- C6: removeWebSocketFailedListener empties the listener list and the
failing-websockets list and leaves the transport, the subscriber and both
status caches exactly as they were. -/
theorem C6_thm {W L : Type} (st : ClientState W L) :
    (removeWebSocketFailedListener st).webSocketListeners = [] ∧
    (removeWebSocketFailedListener st).failingWebSockets = [] ∧
    (removeWebSocketFailedListener st).websocketClient = st.websocketClient ∧
    (removeWebSocketFailedListener st).subscriber = st.subscriber ∧
    (removeWebSocketFailedListener st).previousItems = st.previousItems ∧
    (removeWebSocketFailedListener st).lastDevWorkspaceLog = st.lastDevWorkspaceLog :=
  ⟨rfl, rfl, rfl, rfl, rfl, rfl⟩

/-- C7: checkForDevWorkspaceError throws the remote message when the phase
is FAILED and the message is truthy, throws the generic fallback when the
phase is FAILED and the message is absent or empty, and returns normally
whenever the phase is absent or differs from FAILED. -/
theorem C7_thm (dw : DevWorkspace) :
    (getStatus dw = some DevWorkspaceStatus.FAILED →
      (∀ m, statusMessage dw = some m → m ≠ "" →
        checkForDevWorkspaceError dw = Except.error m) ∧
      ((statusMessage dw = none ∨ statusMessage dw = some "") →
        checkForDevWorkspaceError dw =
          Except.error "Unknown error occured when trying to process the devworkspace")) ∧
    (getStatus dw ≠ some DevWorkspaceStatus.FAILED →
      checkForDevWorkspaceError dw = Except.ok ()) := by
  constructor
  · intro hst
    constructor
    · intro m hm hne
      simp [checkForDevWorkspaceError, hst, hm, hne]
    · intro hcase
      rcases hcase with h | h <;> simp [checkForDevWorkspaceError, hst, h]
  · intro hst
    cases h : getStatus dw with
    | none => simp [checkForDevWorkspaceError, h]
    | some p =>
      have hp : ¬p = DevWorkspaceStatus.FAILED := by
        intro he
        exact hst (by rw [h, he])
      simp [checkForDevWorkspaceError, h, hp]

/-- C7 witness: the failed workspace throws its message boom, the running
workspace passes the check. -/
theorem C7_witness :
    checkForDevWorkspaceError dwFailed = Except.error "boom" ∧
    checkForDevWorkspaceError dwW1 = Except.ok () :=
  ⟨((C7_thm dwFailed).1 (by decide)).1 "boom" rfl (by decide),
   (C7_thm dwW1).2 (by decide)⟩

/-- C8: whenever the transport reports a context opened while a Subscriber
is set, the client issues the subscribe requests again for all three
channels, onModified first, then onAdded, then onDeleted. -/
theorem C8_thm {W L : Type} (st : ClientState W L) (websocketContext : String)
    (sub : Subscriber) (h : st.subscriber = some sub) :
    (onDidWebSocketOpen st websocketContext).subscribeRequests =
      [getSubscribeMessage sub "onModified", getSubscribeMessage sub "onAdded",
       getSubscribeMessage sub "onDeleted"] ∧
    (onDidWebSocketOpen st websocketContext).subscribeRequests.map (fun msg => msg.channel) =
      ["onModified", "onAdded", "onDeleted"] := by
  constructor <;> simp [onDidWebSocketOpen, subscribe, h, getSubscribeMessage]

/-- C8 witness: reopening a context on the subscribed state replays the
three channels in registration order. -/
theorem C8_witness :
    (onDidWebSocketOpen stWithSub "ctx").subscribeRequests.map (fun msg => msg.channel) =
      ["onModified", "onAdded", "onDeleted"] :=
  (C8_thm stWithSub "ctx" sub1 rfl).2

/-- C9: changeWorkspaceStatus with started false deletes the last-log
entry of the patched workspace id, so a lookup of that id afterwards finds
nothing and the next truthy status message for that id is attached and
forwarded again; with started true the last-log map is returned
unchanged. -/
theorem C9_thm (lastLog : LogMap) (cw : DevWorkspace) :
    (changeWorkspaceStatus lastLog cw false).1 = mapDelete lastLog (getId cw) ∧
    mapGet (changeWorkspaceStatus lastLog cw false).1 (getId cw) = none ∧
    (changeWorkspaceStatus lastLog cw true).1 = lastLog ∧
    (∀ previousItems dw m, getId dw = getId cw → statusMessage dw = some m → m ≠ "" →
      (onModified previousItems (changeWorkspaceStatus lastLog cw false).1
          (Payload.workspace dw)).statusCalls.map (fun u => u.message) = [some m]) := by
  have h1 : (changeWorkspaceStatus lastLog cw false).1 = mapDelete lastLog (getId cw) := by
    cases h : checkForDevWorkspaceError cw <;> simp [changeWorkspaceStatus, h]
  have h2 : (changeWorkspaceStatus lastLog cw true).1 = lastLog := by
    cases h : checkForDevWorkspaceError cw <;> simp [changeWorkspaceStatus, h]
  refine ⟨h1, ?_, h2, ?_⟩
  · rw [h1]
    exact mapGet_mapDelete lastLog (getId cw)
  · intro previousItems dw m hid hm hne
    have hdiff : mapGet (changeWorkspaceStatus lastLog cw false).1 (getId dw) ≠ some m := by
      rw [hid, h1, mapGet_mapDelete]
      simp
    rw [onModified_attach previousItems _ dw m hm hne hdiff]
    simp

/-- C9 witness: stopping w1 clears its recorded message hello, starting
leaves the map; afterwards the same message hello is forwarded again. -/
theorem C9_witness :
    (changeWorkspaceStatus [("w1", "hello")] dwW1 false).1 = [] ∧
    (changeWorkspaceStatus [("w1", "hello")] dwW1 true).1 = [("w1", "hello")] ∧
    (onModified [] (changeWorkspaceStatus [("w1", "hello")] dwW1 false).1
        (Payload.workspace dwMsg)).statusCalls.map (fun u => u.message) = [some "hello"] := by
  have h := C9_thm [("w1", "hello")] dwW1
  refine ⟨?_, h.2.2.1, h.2.2.2 [] dwMsg "hello" rfl rfl (by decide)⟩
  rw [h.1]
  decide
